import Mathlib

/-!
Shallow embedding of the rss-digest article lifecycle pipeline
(src/src/database.py, src/src/rss_fetcher.py, src/src/llm_processor.py,
src/src/email_sender.py, src/src/main.py, src/config/feeds.py).

Conventions of the embedding:
* The Supabase `articles` table is a `List Row`; each `Row` carries the
  columns the source reads and writes.  `NULL` columns are `Option`s.
* Timestamps and dates are `Int` (the source compares ISO strings, whose
  order is chronological order).
* External effects (the completion backend, the mail transport) are passed
  in as explicit outcome values; each modelled operation additionally
  reports whether it invoked the backend so that claims about "the backend
  is not invoked" are statable.
* Fallible Python code (`try`/`except` returning a default) becomes
  `Option`-valued code; Python dictionary truthiness is modelled exactly
  where the source relies on it (`if analysis:`, `if limit:`, `if date_str:`).
* The storage backend is modelled as available: read/write round-trips
  succeed, and `response.data` is nonempty exactly when some record matched.
-/

namespace RssDigest

/-! ### JSON values and a model of `json.loads`

`analyze_article` feeds the completion response to `json.loads`.  JSON
values are modelled with integer numerals only (no floats appear in any
claim); the parser below recognises objects, arrays, strings with the
basic escapes, integers, `true`, `false` and `null`, and requires the
whole input to be consumed, as `json.loads` does. -/

inductive Json where
  | null
  | bool (b : Bool)
  | num (n : Int)
  | str (s : String)
  | arr (elems : List Json)
  | obj (fields : List (String × Json))

def jsonWs (c : Char) : Bool :=
  c = ' ' || c = '\t' || c = '\n' || c = '\r'

def skipWs (cs : List Char) : List Char :=
  cs.dropWhile jsonWs

def lbrace : Char := Char.ofNat 123

def rbrace : Char := Char.ofNat 125

def parseStringBody (fuel : Nat) (cs : List Char) (acc : List Char) :
    Option (String × List Char) :=
  match fuel, cs with
  | 0, _ => none
  | _, [] => none
  | fuel + 1, c :: rest =>
    if c = '"' then some (String.mk acc.reverse, rest)
    else if c = '\\' then
      match rest with
      | '"' :: rest2 => parseStringBody fuel rest2 ('"' :: acc)
      | '\\' :: rest2 => parseStringBody fuel rest2 ('\\' :: acc)
      | '/' :: rest2 => parseStringBody fuel rest2 ('/' :: acc)
      | 'n' :: rest2 => parseStringBody fuel rest2 ('\n' :: acc)
      | 't' :: rest2 => parseStringBody fuel rest2 ('\t' :: acc)
      | 'r' :: rest2 => parseStringBody fuel rest2 ('\r' :: acc)
      | _ => none
    else parseStringBody fuel rest (c :: acc)

def parseDigits (fuel : Nat) (cs : List Char) (acc : Nat) (seen : Bool) :
    Option (Nat × List Char) :=
  match fuel, cs with
  | 0, _ => none
  | _, [] => if seen then some (acc, []) else none
  | fuel + 1, c :: rest =>
    if c.isDigit then parseDigits fuel rest (acc * 10 + (c.toNat - 48)) true
    else if seen then some (acc, c :: rest)
    else none

mutual

def parseValue (fuel : Nat) (cs : List Char) : Option (Json × List Char) :=
  match fuel with
  | 0 => none
  | fuel + 1 =>
    match skipWs cs with
    | [] => none
    | c :: rest =>
      if c = '"' then
        (parseStringBody fuel rest []).map fun (s, r) => (Json.str s, r)
      else if c = lbrace then
        match skipWs rest with
        | c2 :: rest2 =>
          if c2 = rbrace then some (Json.obj [], rest2)
          else (parseMembers fuel (c2 :: rest2) []).map fun (fs, r) =>
            (Json.obj fs, r)
        | [] => none
      else if c = '[' then
        match skipWs rest with
        | c2 :: rest2 =>
          if c2 = ']' then some (Json.arr [], rest2)
          else (parseElems fuel (c2 :: rest2) []).map fun (xs, r) =>
            (Json.arr xs, r)
        | [] => none
      else if c = '-' then
        (parseDigits fuel rest 0 false).map fun (m, r) => (Json.num (-(m : Int)), r)
      else if c.isDigit then
        (parseDigits fuel (c :: rest) 0 false).map fun (m, r) => (Json.num (m : Int), r)
      else if (c :: rest).take 4 = ['t', 'r', 'u', 'e'] then
        some (Json.bool true, (c :: rest).drop 4)
      else if (c :: rest).take 5 = ['f', 'a', 'l', 's', 'e'] then
        some (Json.bool false, (c :: rest).drop 5)
      else if (c :: rest).take 4 = ['n', 'u', 'l', 'l'] then
        some (Json.null, (c :: rest).drop 4)
      else none

def parseMembers (fuel : Nat) (cs : List Char) (acc : List (String × Json)) :
    Option (List (String × Json) × List Char) :=
  match fuel with
  | 0 => none
  | fuel + 1 =>
    match skipWs cs with
    | '"' :: rest =>
      match parseStringBody fuel rest [] with
      | none => none
      | some (key, rest2) =>
        match skipWs rest2 with
        | ':' :: rest3 =>
          match parseValue fuel rest3 with
          | none => none
          | some (v, rest4) =>
            match skipWs rest4 with
            | ',' :: rest5 => parseMembers fuel rest5 ((key, v) :: acc)
            | c :: rest5 =>
              if c = rbrace then some (((key, v) :: acc).reverse, rest5)
              else none
            | [] => none
        | _ => none
    | _ => none

def parseElems (fuel : Nat) (cs : List Char) (acc : List Json) :
    Option (List Json × List Char) :=
  match fuel with
  | 0 => none
  | fuel + 1 =>
    match parseValue fuel cs with
    | none => none
    | some (v, rest) =>
      match skipWs rest with
      | ',' :: rest2 => parseElems fuel rest2 (v :: acc)
      | ']' :: rest2 => some ((v :: acc).reverse, rest2)
      | _ => none

end

/-- Model of `json.loads`: parse one JSON value and require only whitespace
after it. -/
def jsonLoads (s : String) : Option Json :=
  match parseValue (2 * s.length + 8) s.data with
  | some (j, rest) => if skipWs rest = [] then some j else none
  | none => none

/-! ### Python string primitives

`str.strip`, `str.startswith`, `str.split` and slicing are implemented
over the character list so that every modelled operation evaluates by
kernel reduction. -/

/-- Python `str.strip()`: whitespace removed from both ends. -/
def pyStrip (s : String) : String :=
  String.mk
    (((s.data.dropWhile Char.isWhitespace).reverse.dropWhile
      Char.isWhitespace).reverse)

/-- Python `s.startswith(pre)`. -/
def strStartsWith (s pre : String) : Bool :=
  pre.data.isPrefixOf s.data

/-- Python `s[n:]`. -/
def strDrop (s : String) (n : Nat) : String :=
  String.mk (s.data.drop n)

def splitOnList (sep : List Char) : Nat → List Char → List Char →
    List (List Char)
  | _, [], cur => [cur.reverse]
  | 0, cs, cur => [cur.reverse ++ cs]
  | fuel + 1, c :: cs, cur =>
    if sep.isPrefixOf (c :: cs) then
      cur.reverse :: splitOnList sep fuel ((c :: cs).drop sep.length) []
    else
      splitOnList sep fuel cs (c :: cur)

/-- Python `s.split(sep)` for a nonempty separator. -/
def pySplitOn (sep : String) (s : String) : List String :=
  (splitOnList sep.data (s.data.length + 1) s.data []).map String.mk

/-! ### Python `str.format` over a template

A prompt template is modelled in its parsed form: a list of literal
segments and substitution fields.  `pyFormat` substitutes the supplied
keyword arguments; a field whose name is not among them is Python's
`KeyError`, modelled as `none`. -/

inductive Seg where
  | lit (s : String)
  | fld (name : String)

abbrev Template := List Seg

def pyFormat (t : Template) (vals : List (String × String)) : Option String :=
  match t with
  | [] => some ""
  | Seg.lit s :: rest => (pyFormat rest vals).map fun tail => s ++ tail
  | Seg.fld n :: rest =>
    match vals.lookup n with
    | some v => (pyFormat rest vals).map fun tail => v ++ tail
    | none => none

/-! ### The article store (src/src/database.py)

One record of the Supabase `articles` table, with the columns the source
touches.  `insert_article` writes `url`, `title`, `rss_summary`,
`feed_category`, `published_date` and `processed = false`; the analysis
columns and `included_in_email_date` start as database `NULL`. -/

structure Row where
  id : Nat
  url : String
  title : String
  rss_summary : String
  feed_category : String
  published_date : Option Int
  processed : Bool
  llm_summary : Option String
  llm_category : Option String
  importance_score : Option Int
  key_entities : Option (List String)
  data_points : Option (List String)
  included_in_email_date : Option Int
deriving DecidableEq, Repr

abbrev DB := List Row

/-- What the RSS fetcher hands to `insert_article`: the dictionary built in
`_fetch_single_feed`. -/
structure ArticleInput where
  url : String
  title : String
  rss_summary : String
  feed_category : String
  published_date : Option Int
deriving DecidableEq, Repr

/-- `Database.article_exists`: a `select` filtered on `url` returns a
nonempty `data` exactly when some record has that `url`. -/
def article_exists (db : DB) (url : String) : Bool :=
  db.any fun r => r.url == url

/-- The record `Database.insert_article` writes on success: the input's
fields, `processed = false`, and database `NULL` for the analysis columns
and `included_in_email_date`. -/
def freshRow (a : ArticleInput) (newId : Nat) : Row :=
  { id := newId, url := a.url, title := a.title,
    rss_summary := a.rss_summary, feed_category := a.feed_category,
    published_date := a.published_date, processed := false,
    llm_summary := none, llm_category := none,
    importance_score := none, key_entities := none,
    data_points := none, included_in_email_date := none }

/-- `Database.insert_article`.  Checks `article_exists` first and returns
`none` without writing on a duplicate; otherwise appends the fresh
record.  `newId` is the identifier the database assigns to it. -/
def insert_article (db : DB) (a : ArticleInput) (newId : Nat) : DB × Option Nat :=
  if article_exists db a.url then (db, none)
  else (db ++ [freshRow a newId], some newId)

/-- The per-record effect of the `update` in
`Database.update_article_analysis`: a record matching the `url` filter
gets the five analysis columns and `processed = true`; others are
untouched. -/
def updateRow (url : String) (llm_summary llm_category : String)
    (importance_score : Int) (key_entities data_points : List String)
    (r : Row) : Row :=
  if r.url == url then
    { r with llm_summary := some llm_summary,
             llm_category := some llm_category,
             importance_score := some importance_score,
             key_entities := some key_entities,
             data_points := some data_points,
             processed := true }
  else r

/-- `Database.update_article_analysis`: an `update` filtered on `url` sets
the five analysis columns and `processed = true` on every matching record;
`response.data` is nonempty (success) exactly when some record matched. -/
def update_article_analysis (db : DB) (url : String)
    (llm_summary llm_category : String) (importance_score : Int)
    (key_entities data_points : List String) : DB × Bool :=
  (db.map (updateRow url llm_summary llm_category importance_score
    key_entities data_points),
   db.any fun r => r.url == url)

/-- `Database.get_unprocessed_articles`.  Python's `if limit:` applies the
cap only for a truthy (nonzero) limit. -/
def get_unprocessed_articles (db : DB) (limit : Option Nat) : DB :=
  let base := db.filter fun r => !r.processed
  match limit with
  | some n => if n ≠ 0 then base.take n else base
  | none => base

/-- SQL `published_date >= bound`: `NULL` satisfies no comparison. -/
def dateGe (d : Option Int) (bound : Int) : Bool :=
  match d with
  | some v => bound ≤ v
  | none => false

/-- SQL `published_date <= bound`: `NULL` satisfies no comparison. -/
def dateLe (d : Option Int) (bound : Int) : Bool :=
  match d with
  | some v => v ≤ bound
  | none => false

/-- The `WHERE` clause of `Database.get_articles_for_digest`:
`published_date` in `[start_date, end_date]`, `processed` when
`only_processed`, and `included_in_email_date IS NULL`. -/
def matchesDigestQuery (only_processed : Bool) (start_date end_date : Int)
    (r : Row) : Bool :=
  dateGe r.published_date start_date && dateLe r.published_date end_date &&
  (!only_processed || r.processed) && r.included_in_email_date.isNone

/-- `ORDER BY importance_score DESC`: `a` may precede `b`.  PostgreSQL
places `NULL` first in descending order. -/
def scoreDescLe (a b : Row) : Bool :=
  match a.importance_score, b.importance_score with
  | none, _ => true
  | some _, none => false
  | some x, some y => y ≤ x

/-- `Database.get_articles_for_digest`: filter, then order by
`importance_score` descending.  The database guarantees no particular
order among ties; the model fixes the stable one. -/
def get_articles_for_digest (db : DB) (start_date end_date : Int)
    (only_processed : Bool := true) : List Row :=
  (db.filter (matchesDigestQuery only_processed start_date end_date)).mergeSort
    scoreDescLe

/-- The per-record effect of the `update` in `Database.mark_articles_sent`:
a record whose `id` is in the batch gets `included_in_email_date` set. -/
def markRow (article_ids : List Nat) (email_date : Int) (r : Row) : Row :=
  if article_ids.contains r.id then
    { r with included_in_email_date := some email_date }
  else r

/-- `Database.mark_articles_sent`: an `update` filtered on `id IN
article_ids` sets `included_in_email_date`; success is a nonempty
`response.data`, i.e. some record matched. -/
def mark_articles_sent (db : DB) (article_ids : List Nat) (email_date : Int) :
    DB × Bool :=
  (db.map (markRow article_ids email_date),
   db.any fun r => article_ids.contains r.id)

/-! ### The RSS fetcher (src/src/rss_fetcher.py)

A `feedparser` entry as `_fetch_single_feed` and `_parse_date` read it:
`entry.get('link', '')` and `entry.get('title', '')` are plain strings
(empty when absent), the three raw date fields are `entry.get(field)`
(absent or the raw string), and `published_parsed` is the pre-parsed
time tuple when present.  `dateutil.parser.parse` and the
`datetime(*entry.published_parsed[:6])` constructor are external
collaborators, passed in as the fallible functions `dp` and `mk`. -/

structure TimeTuple where
  year : Int
  month : Int
  day : Int
  hour : Int
  minute : Int
  second : Int
deriving DecidableEq, Repr

structure Entry where
  link : String
  title : String
  summary : String
  published : Option String
  updated : Option String
  created : Option String
  published_parsed : Option TimeTuple
deriving DecidableEq, Repr

/-- The loop over `['published', 'updated', 'created']` in
`RSSFetcher._parse_date`: a field is tried when truthy (present and
nonempty); a parse failure falls through to the next field. -/
def tryDateFields (dp : String → Option Int) :
    List (Option String) → Option Int
  | [] => none
  | f :: rest =>
    match f with
    | some s =>
      if s ≠ "" then
        match dp s with
        | some d => some d
        | none => tryDateFields dp rest
      else tryDateFields dp rest
    | none => tryDateFields dp rest

/-- `RSSFetcher._parse_date`: the three raw fields in order, then the
pre-parsed time tuple, then `None`. -/
def parse_date (dp : String → Option Int) (mk : TimeTuple → Option Int)
    (e : Entry) : Option Int :=
  match tryDateFields dp [e.published, e.updated, e.created] with
  | some d => some d
  | none =>
    match e.published_parsed with
    | some t => mk t
    | none => none

/-- The per-entry body of `RSSFetcher._fetch_single_feed`: parse the date,
drop entries with a known date strictly before the cutoff, keep the entry
when it has a link and a title. -/
def fetch_single_feed (dp : String → Option Int) (mk : TimeTuple → Option Int)
    (entries : List Entry) (feed_name : String) (cutoff : Int) :
    List ArticleInput :=
  entries.filterMap fun e =>
    let pub := parse_date dp mk e
    let tooOld : Bool :=
      match pub with
      | some d => decide (d < cutoff)
      | none => false
    if tooOld then none
    else if e.link ≠ "" && e.title ≠ "" then
      some { url := e.link, title := e.title, rss_summary := e.summary,
             feed_category := feed_name, published_date := pub }
    else none

/-! ### The LLM processor (src/src/llm_processor.py)

The completion backend is an external collaborator; its outcome is an
input: `none` models a transport error or any exception raised by the
call, `some content` the returned message text.  Each modelled operation
also reports whether the completion call was issued. -/

structure CompletionOutcome where
  response : Option String
deriving DecidableEq, Repr

/-- Python rendering of a nullable date column into an f-string or
`str.format` value: `None` prints as `None`. -/
def pyOptIntText (d : Option Int) : String :=
  match d with
  | some v => toString v
  | none => "None"

/-- Python rendering of a nullable text column: `dict.get` returns the
stored `None` (the key is present), which prints as `None`. -/
def pyOptStrText (s : Option String) : String :=
  match s with
  | some v => v
  | none => "None"

/-- The markdown code-fence stripping in `LLMProcessor.analyze_article`
(lines 81–85): on a leading ```` ``` ```` take the text up to the next
fence, drop a leading `json`, and strip again. -/
def stripCodeFences (content : String) : String :=
  if strStartsWith content "```" then
    let piece := (pySplitOn "```" content).getD 1 ""
    let piece := if strStartsWith piece "json" then strDrop piece 4 else piece
    pyStrip piece
  else content

/-- The keyword arguments `analyze_article` formats the analysis prompt
with: the row's `title`, `rss_summary`, `feed_category` and
`published_date` (all keys present in the row dictionary). -/
def analysisPromptVals (article : Row) : List (String × String) :=
  [("title", article.title), ("rss_summary", article.rss_summary),
   ("feed_category", article.feed_category),
   ("published_date", pyOptIntText article.published_date)]

/-- `LLMProcessor.analyze_article`.  Formats the prompt (a `KeyError`
aborts before any backend call), issues one completion request, strips
code fences, and returns whatever `json.loads` yields — the parsed value
is returned as-is, with no field validation.  The second component
records whether the completion call was issued. -/
def analyze_article (env : CompletionOutcome) (article : Row)
    (prompt_template : Template) : Option Json × Bool :=
  match pyFormat prompt_template (analysisPromptVals article) with
  | none => (none, false)
  | some _prompt =>
    match env.response with
    | none => (none, true)
    | some content => (jsonLoads (stripCodeFences (pyStrip content)), true)

/-- One entry of `LLMProcessor._format_articles_for_prompt` (the f-string,
already stripped).  `', '.join` of a `NULL` `key_entities` or
`data_points` column raises `TypeError`, modelled as `none`. -/
def format_article_block (i : Nat) (r : Row) : Option String :=
  match r.key_entities, r.data_points with
  | some ke, some dp =>
    some ("Article " ++ toString i ++ ":\nTitle: " ++ r.title ++
      "\nURL: " ++ r.url ++ "\nFeed: " ++ r.feed_category ++
      "\nPublished: " ++ pyOptIntText r.published_date ++
      "\nSummary: " ++ pyOptStrText r.llm_summary ++
      "\nCategory: " ++ pyOptStrText r.llm_category ++
      "\nImportance Score: " ++ pyOptIntText r.importance_score ++ "/10" ++
      "\nKey Entities: " ++ String.intercalate ", " ke ++
      "\nData Points: " ++ String.intercalate ", " dp)
  | _, _ => none

def formatBlocks : Nat → List Row → Option (List String)
  | _, [] => some []
  | i, r :: rest =>
    match format_article_block i r, formatBlocks (i + 1) rest with
    | some b, some bs => some (b :: bs)
    | _, _ => none

/-- `LLMProcessor._format_articles_for_prompt`: the blocks, numbered from
1, joined by the separator. -/
def format_articles_for_prompt (articles : List Row) : Option String :=
  (formatBlocks 1 articles).map (String.intercalate "\n\n---\n\n")

/-- Python's `sorted(articles, key=lambda x: x.get('importance_score', 0),
reverse=True)`: a stable descending sort.  The column key is always
present, so the `0` default is dead; a `None` value is unorderable, and
with at least two elements every element takes part in a comparison, so
the sort raises `TypeError` (`none`) exactly when the list has length at
least 2 and some key is `None`. -/
def sortArticles (articles : List Row) : Option (List Row) :=
  if articles.length ≤ 1 then some articles
  else if articles.any fun r => r.importance_score.isNone then none
  else some (articles.mergeSort fun a b =>
    decide ((b.importance_score.getD 0) ≤ (a.importance_score.getD 0)))

/-- `LLMProcessor.generate_digest`.  Sorts the articles, serializes them,
formats the prompt with `article_count` and `article_list` — and only
those two: the `date_range` argument is received but never substituted
(lines 129–132), so a template with a `date_range` field makes
`str.format` raise `KeyError`, caught as a failure before any backend
call.  The second component records whether the completion call was
issued. -/
def generate_digest (env : CompletionOutcome) (articles : List Row)
    (prompt_template : Template) (date_range : String) :
    Option String × Bool :=
  match sortArticles articles with
  | none => (none, false)
  | some sorted_articles =>
    match format_articles_for_prompt sorted_articles with
    | none => (none, false)
    | some article_list =>
      match pyFormat prompt_template
          [("article_count", toString sorted_articles.length),
           ("article_list", article_list)] with
      | none => (none, false)
      | some _prompt =>
        match env.response with
        | none => (none, true)
        | some content => (some (pyStrip content), true)

/-- The shipped digest template (src/config/feeds.py, lines 19–87), in
parsed form: its three substitution fields are `date_range`,
`article_count` and `article_list`, embedded in the literal instruction
text. -/
def DIGEST_GENERATION_PROMPT : Template :=
  [ Seg.lit "You are creating a weekly digest for a European data journalist interested in markets and policy.\n\nARTICLES FROM ",
    Seg.fld "date_range",
    Seg.lit " (",
    Seg.fld "article_count",
    Seg.lit " articles):\n",
    Seg.fld "article_list",
    Seg.lit "\n\nTONE AND LANGUAGE:\n- Use factual, descriptive language\n- State what happened, where, when, who was involved, and direct factual consequences\n- Let events speak for themselves through clear description\n- Focus on observable actions and stated positions\n- Write in plain, straightforward prose\n\nTASK: Analyze these articles and create a comprehensive digest with the following sections:\n\n1. THIS WEEK'S BIG PICTURE\n   - Analyze all articles to identify the main story or theme this week\n   - Write ONE paragraph describing the main developments in simple, factual language\n   - Focus on what's happening that matters most\n\n2. TOP 3 ARTICLES TO READ\n   - Select the 3 most important/interesting articles based on:\n     * Relevance to European data journalists\n     * Impact on markets and policy\n     * Data journalism opportunities\n   - For each article provide:\n     * Title (as clickable link using the URL)\n     * 2-3 sentence summary in plain language\n     * Key context or direct impact (1 sentence, stated factually)\n\n3. WHAT'S HAPPENING\n   Choose ONE article for each theme below (select DIFFERENT articles from those in TOP 3):\n\n   IN EUROPE:\n   - Article title (as clickable link)\n   - Simple 2-sentence summary\n   - Focus on European politics, economy, or EU policy\n\n   INTERNATIONALLY:\n   - Article title (as clickable link)\n   - Simple 2-sentence summary\n   - Focus on global context relevant to Europe\n\n   IN THE MARKETS:\n   - Article title (as clickable link)\n   - Simple 2-sentence summary\n   - Include any ECB signals, European markets, or personal finance insights\n\n4. DATA JOURNALISM OPPORTUNITIES\n   - Specific story ideas with data angles from the articles\n   - Datasets or sources mentioned\n   - Cross-country comparison opportunities\n   - Trends worth tracking\n\nFORMATTING REQUIREMENTS:\n- Use simple, clear language throughout (write like you're explaining to someone who's half asleep)\n- Be to the point, use sober language, state facts directly\n- Describe events as they occurred \n- Format as clean, semantic HTML:\n  * <h2> for main sections\n  * <h3> for subsections\n  * <p> for paragraphs\n  * <ul>/<li> for lists\n  * <a href=\"url\"> for article links\n- Each article should appear only ONCE in the entire digest\n- Do NOT include introductory text like \"Here is your weekly digest...\"\n- Return ONLY the HTML content for the digest body (no html/head/body tags)\n\nBegin your analysis and digest creation now:\n" ]

/-! ### The email sender (src/src/email_sender.py)

Template loading, the page shell and the `Mail` construction do not
affect the returned Boolean; only the transport call's outcome does.  Any
exception anywhere in `send_digest` is caught and yields `False`. -/

inductive SendOutcome where
  | status (code : Int)
  | exn
deriving DecidableEq, Repr

/-- `EmailSender.send_digest`: success exactly when the transport status
code is 200, 201 or 202; any other code, or any exception, is failure. -/
def send_digest (outcome : SendOutcome) : Bool :=
  match outcome with
  | SendOutcome.status code => code == 200 || code == 201 || code == 202
  | SendOutcome.exn => false

/-! ### The orchestrator (src/src/main.py) -/

/-- Python `dict.get` on the object `json.loads` built: the last binding
of a duplicated key wins. -/
def pyDictGet (fields : List (String × Json)) (k : String) (dflt : Json) :
    Json :=
  match fields.reverse.lookup k with
  | some v => v
  | none => dflt

/-- Python truthiness of a decoded JSON value (`if analysis:`). -/
def jsonTruthy : Json → Bool
  | Json.null => false
  | Json.bool b => b
  | Json.num n => n != 0
  | Json.str s => s != ""
  | Json.arr xs => !xs.isEmpty
  | Json.obj fs => !fs.isEmpty

def asStr : Json → Option String
  | Json.str s => some s
  | _ => none

def asInt : Json → Option Int
  | Json.num n => some n
  | _ => none

def asStrList : Json → Option (List String)
  | Json.arr xs =>
    xs.foldr
      (fun x acc =>
        match x, acc with
        | Json.str s, some l => some (s :: l)
        | _, _ => none)
      (some [])
  | _ => none

/-- One iteration of the loop in `DigestOrchestrator.process_articles`
(lines 120–146).  A failed analysis (`None`) or a falsy one (an empty
object, among others) leaves the store untouched.  A truthy non-object
raises `AttributeError` at `.get`, caught by the loop's `except` — also
no store change.  A truthy object is read with the defaults `''`,
`'Unknown'`, `5`, `[]`, `[]` and written through
`update_article_analysis`, whose declared column types are text, text,
integer and text arrays; a value of the wrong shape is rejected by the
typed storage layer, modelled as a failed update. -/
def process_one (db : DB) (article : Row) (response : Option String)
    (prompt_template : Template) : DB × Bool :=
  match (analyze_article ⟨response⟩ article prompt_template).1 with
  | none => (db, false)
  | some analysis =>
    if jsonTruthy analysis then
      match analysis with
      | Json.obj fs =>
        match asStr (pyDictGet fs "summary" (Json.str "")),
            asStr (pyDictGet fs "category" (Json.str "Unknown")),
            asInt (pyDictGet fs "importance_score" (Json.num 5)),
            asStrList (pyDictGet fs "key_entities" (Json.arr [])),
            asStrList (pyDictGet fs "data_points" (Json.arr [])) with
        | some ls, some lc, some sc, some ke, some dp =>
          update_article_analysis db article.url ls lc sc ke dp
        | _, _, _, _, _ => (db, false)
      | _ => (db, false)
    else (db, false)

/-- `DigestOrchestrator.process_articles`: fetch the unprocessed articles
once, then run `process_one` over them, counting successful updates.
`responses` gives the completion outcome of the i-th analysis call. -/
def process_articles (db : DB) (prompt_template : Template)
    (responses : Nat → Option String) (limit : Option Nat) : DB × Nat :=
  let articles := get_unprocessed_articles db limit
  articles.enum.foldl
    (fun acc p =>
      let step := process_one acc.1 p.2 (responses p.1) prompt_template
      (step.1, acc.2 + if step.2 then 1 else 0))
    (db, 0)

/-- The outcome of one `DigestOrchestrator.generate_and_send_digest` run:
the store afterwards, the returned Boolean, and whether
`LLMProcessor.generate_digest`, the completion backend, and
`mark_articles_sent` were invoked. -/
structure RunResult where
  db : DB
  ok : Bool
  generateInvoked : Bool
  backendInvoked : Bool
  markInvoked : Bool
deriving Repr

/-- `DigestOrchestrator.generate_and_send_digest` (lines 156–230).
Selection feeds composition; a falsy digest (`None` or the empty string)
is failure; in a dry run the email is skipped; otherwise
`mark_articles_sent` runs exactly when `send_digest` returned `True`
(its own Boolean is ignored).  `digestTemplate` is the
`DIGEST_GENERATION_PROMPT` value the orchestrator imports from
`config/rss_feeds.py`, a module absent from the sources — it is passed
as a parameter here (src/config/feeds.py ships the
`DIGEST_GENERATION_PROMPT` above). -/
def generate_and_send_digest (db : DB) (start_date end_date : Int)
    (dry_run : Bool) (digestTemplate : Template) (date_range : String)
    (gen : CompletionOutcome) (transport : SendOutcome) (today : Int) :
    RunResult :=
  let articles := get_articles_for_digest db start_date end_date true
  if articles.isEmpty then ⟨db, false, false, false, false⟩
  else
    let gd := generate_digest gen articles digestTemplate date_range
    match gd.1 with
    | none => ⟨db, false, true, gd.2, false⟩
    | some digest_html =>
      if digest_html == "" then ⟨db, false, true, gd.2, false⟩
      else if dry_run then ⟨db, true, true, gd.2, false⟩
      else if send_digest transport then
        ⟨(mark_articles_sent db (articles.map fun r => r.id) today).1,
         true, true, gd.2, true⟩
      else ⟨db, false, true, gd.2, false⟩

/-- The store mutations the system performs after a digest run: further
inserts, analysis updates and mark-sent batches.  No operation ever
clears `included_in_email_date`. -/
inductive StoreOp where
  | insert (a : ArticleInput) (newId : Nat)
  | updateAnalysis (url : String) (llm_summary llm_category : String)
      (importance_score : Int) (key_entities data_points : List String)
  | mark (article_ids : List Nat) (email_date : Int)

def applyOp (db : DB) : StoreOp → DB
  | StoreOp.insert a newId => (insert_article db a newId).1
  | StoreOp.updateAnalysis url ls lc sc ke dp =>
    (update_article_analysis db url ls lc sc ke dp).1
  | StoreOp.mark ids d => (mark_articles_sent db ids d).1

def applyOps (db : DB) (ops : List StoreOp) : DB :=
  ops.foldl applyOp db

/-- Modelled from the spec: the §4.3 analysis response schema — an object
with exactly the fields `summary` (string), `category` (string; the
spec's fixed enumerated set lives in `ARTICLE_ANALYSIS_PROMPT`, whose
module `config/rss_feeds.py` is absent from the sources, so membership
in the set is not checked — dropping that check only weakens this
predicate), `importance_score` (integer 1–10), `key_entities` and
`data_points` (arrays of strings) and `why_interesting` (string). -/
def validAnalysisShape (j : Json) : Bool :=
  match j with
  | Json.obj fs =>
    let names := ["summary", "category", "importance_score",
                  "key_entities", "data_points", "why_interesting"]
    (fs.map Prod.fst).all (fun k => names.contains k) &&
    names.all (fun k => (fs.lookup k).isSome) &&
    (asStr (pyDictGet fs "summary" Json.null)).isSome &&
    (asStr (pyDictGet fs "category" Json.null)).isSome &&
    (match asInt (pyDictGet fs "importance_score" Json.null) with
     | some n => decide (1 ≤ n) && decide (n ≤ 10)
     | none => false) &&
    (asStrList (pyDictGet fs "key_entities" Json.null)).isSome &&
    (asStrList (pyDictGet fs "data_points" Json.null)).isSome &&
    (asStr (pyDictGet fs "why_interesting" Json.null)).isSome
  | _ => false

/-! ### Helper lemmas -/

theorem mem_get_articles_for_digest {db : DB} {s e : Int} {p : Bool} {r : Row} :
    r ∈ get_articles_for_digest db s e p ↔
      r ∈ db ∧ matchesDigestQuery p s e r = true := by
  unfold get_articles_for_digest
  rw [List.mem_mergeSort, List.mem_filter]

theorem scoreDescLe_trans (a b c : Row) (hab : scoreDescLe a b = true)
    (hbc : scoreDescLe b c = true) : scoreDescLe a c = true := by
  unfold scoreDescLe at hab hbc ⊢
  cases ha : a.importance_score <;> cases hb : b.importance_score <;>
    cases hc : c.importance_score <;> simp_all <;> omega

theorem scoreDescLe_total (a b : Row) : scoreDescLe a b || scoreDescLe b a := by
  unfold scoreDescLe
  cases ha : a.importance_score <;> cases hb : b.importance_score <;>
    simp_all <;> omega

/-! ### C9 — null publication date is invisible to selection -/

/-- C9: a stored article whose `published_date` is `NULL` is never returned
by `get_articles_for_digest`, whatever the range and whatever
`only_processed` is: both SQL range comparisons fail on `NULL`. -/
theorem null_published_never_selected (db : DB) (s e : Int) (p : Bool)
    (r : Row) (h : r.published_date = none) :
    r ∉ get_articles_for_digest db s e p := by
  intro hmem
  have hq := (mem_get_articles_for_digest.mp hmem).2
  unfold matchesDigestQuery dateGe at hq
  rw [h] at hq
  simp at hq

/-- Witness for C9 at a concrete store: a kept-without-date article is not
selected. -/
theorem null_published_never_selected_witness :
    ({ id := 1, url := "u", title := "t", rss_summary := "", feed_category := "f",
       published_date := none, processed := true, llm_summary := some "s",
       llm_category := some "c", importance_score := some 7,
       key_entities := some [], data_points := some [],
       included_in_email_date := none } : Row) ∉
      get_articles_for_digest
        [{ id := 1, url := "u", title := "t", rss_summary := "", feed_category := "f",
           published_date := none, processed := true, llm_summary := some "s",
           llm_category := some "c", importance_score := some 7,
           key_entities := some [], data_points := some [],
           included_in_email_date := none }] 0 100 true :=
  null_published_never_selected _ 0 100 true _ rfl

/-! ### C7 — selection returns the eligible set sorted by score -/

/-- C7: `get_articles_for_digest` returns exactly the stored articles that
are processed, not yet included in a digest, and whose `published_date`
lies in `[start, end]`, and returns them sorted by `importance_score`
descending. -/
theorem selection_ordering (db : DB) (s e : Int) :
    (get_articles_for_digest db s e true).Perm
      (db.filter fun r =>
        r.processed && r.included_in_email_date.isNone &&
        (match r.published_date with
         | some d => decide (s ≤ d) && decide (d ≤ e)
         | none => false)) ∧
    (get_articles_for_digest db s e true).Pairwise
      (fun a b => ∀ x y, a.importance_score = some x →
        b.importance_score = some y → y ≤ x) := by
  constructor
  · refine (List.mergeSort_perm _ _).trans (List.Perm.of_eq ?_)
    refine List.filter_congr ?_
    intro r _
    unfold matchesDigestQuery dateGe dateLe
    cases hpd : r.published_date with
    | none => simp
    | some d =>
      cases hproc : r.processed <;> cases hinc : r.included_in_email_date <;>
        simp [hinc]
  · have hs := List.sorted_mergeSort scoreDescLe_trans scoreDescLe_total
      (db.filter (matchesDigestQuery true s e))
    refine hs.imp ?_
    intro a b hab x y hx hy
    unfold scoreDescLe at hab
    rw [hx, hy] at hab
    simpa using hab

/-! ### C3 — idempotent insert -/

/-- C3: if the identity is already stored, `insert_article` returns `none`
and writes nothing; on a fresh identity the first insert succeeds and
persists the article with `processed = false` and
`included_in_email_date = NULL`, and a second insert of the same identity
is a no-op returning `none`, leaving exactly one stored article with that
`url`. -/
theorem insert_article_idempotent (db : DB) (a : ArticleInput) (i j : Nat) :
    (article_exists db a.url = true → insert_article db a i = (db, none)) ∧
    (article_exists db a.url = false →
      (insert_article db a i).2 = some i ∧
      insert_article (insert_article db a i).1 a j =
        ((insert_article db a i).1, none) ∧
      ((insert_article db a i).1.filter fun r => r.url == a.url).length = 1 ∧
      ∃ r ∈ (insert_article db a i).1, r.url = a.url ∧ r.processed = false ∧
        r.included_in_email_date = none) := by
  constructor
  · intro h
    unfold insert_article
    rw [h]
    simp
  · intro h
    have hins : insert_article db a i = (db ++ [freshRow a i], some i) := by
      unfold insert_article
      rw [h]
      simp
    have hnone : ∀ r ∈ db, (r.url == a.url) = false := by
      intro r hr
      by_contra hc
      have : article_exists db a.url = true :=
        List.any_eq_true.mpr ⟨r, hr, by simpa using hc⟩
      rw [h] at this
      exact Bool.false_ne_true this
    have hex2 : article_exists (db ++ [freshRow a i]) a.url = true :=
      List.any_eq_true.mpr ⟨freshRow a i, by simp, by simp [freshRow]⟩
    refine ⟨by rw [hins], ?_, ?_, ?_⟩
    · rw [hins]
      unfold insert_article
      rw [hex2]
      simp
    · rw [hins, List.filter_append]
      have h1 : db.filter (fun r => r.url == a.url) = [] :=
        List.filter_eq_nil_iff.mpr fun r hr => by simp [hnone r hr]
      have h2 : [freshRow a i].filter (fun r => r.url == a.url) =
          [freshRow a i] := by
        simp [List.filter, freshRow]
      rw [h1, h2]
      simp
    · exact ⟨freshRow a i, by rw [hins]; simp, rfl, rfl, rfl⟩

/-- Witness for C3: duplicate detection and the two-insert scenario on
concrete inputs. -/
theorem insert_article_idempotent_witness :
    (insert_article
      [{ id := 3, url := "https://x/a", title := "t0", rss_summary := "",
         feed_category := "f", published_date := none, processed := false,
         llm_summary := none, llm_category := none, importance_score := none,
         key_entities := none, data_points := none,
         included_in_email_date := none }]
      { url := "https://x/a", title := "t1", rss_summary := "s",
        feed_category := "g", published_date := some 4 } 7 =
      ([{ id := 3, url := "https://x/a", title := "t0", rss_summary := "",
          feed_category := "f", published_date := none, processed := false,
          llm_summary := none, llm_category := none, importance_score := none,
          key_entities := none, data_points := none,
          included_in_email_date := none }], none)) ∧
    ((insert_article []
        { url := "https://x/a", title := "t1", rss_summary := "s",
          feed_category := "g", published_date := some 4 } 1).2 = some 1 ∧
      insert_article
          (insert_article []
            { url := "https://x/a", title := "t1", rss_summary := "s",
              feed_category := "g", published_date := some 4 } 1).1
          { url := "https://x/a", title := "t1", rss_summary := "s",
            feed_category := "g", published_date := some 4 } 2 =
        ((insert_article []
            { url := "https://x/a", title := "t1", rss_summary := "s",
              feed_category := "g", published_date := some 4 } 1).1, none) ∧
      ((insert_article []
          { url := "https://x/a", title := "t1", rss_summary := "s",
            feed_category := "g", published_date := some 4 } 1).1.filter
        fun r => r.url == "https://x/a").length = 1 ∧
      ∃ r ∈ (insert_article []
          { url := "https://x/a", title := "t1", rss_summary := "s",
            feed_category := "g", published_date := some 4 } 1).1,
        r.url = "https://x/a" ∧ r.processed = false ∧
          r.included_in_email_date = none) :=
  ⟨(insert_article_idempotent _ _ 7 7).1 (by decide),
   (insert_article_idempotent [] _ 1 2).2 (by decide)⟩

/-! ### C1 — the monotonic delivery fence -/

/-- The fence invariant for one identity: some record carries the `url`,
and every record carrying it has a non-`NULL` `included_in_email_date`. -/
def urlFenced (u : String) (db : DB) : Prop :=
  (∃ r ∈ db, r.url = u) ∧
  ∀ r ∈ db, r.url = u → r.included_in_email_date ≠ none

theorem insert_article_of_exists {db : DB} {a : ArticleInput} (i : Nat)
    (h : article_exists db a.url = true) :
    insert_article db a i = (db, none) := by
  unfold insert_article
  rw [h]
  simp

theorem insert_article_of_not_exists {db : DB} {a : ArticleInput} (i : Nat)
    (h : article_exists db a.url = false) :
    insert_article db a i = (db ++ [freshRow a i], some i) := by
  unfold insert_article
  rw [h]
  simp

theorem updateRow_url (url ls lc : String) (sc : Int) (ke dp : List String)
    (r : Row) : (updateRow url ls lc sc ke dp r).url = r.url := by
  unfold updateRow
  split <;> rfl

theorem updateRow_included (url ls lc : String) (sc : Int)
    (ke dp : List String) (r : Row) :
    (updateRow url ls lc sc ke dp r).included_in_email_date =
      r.included_in_email_date := by
  unfold updateRow
  split <;> rfl

theorem markRow_url (ids : List Nat) (d : Int) (r : Row) :
    (markRow ids d r).url = r.url := by
  unfold markRow
  split <;> rfl

theorem markRow_included_ne (ids : List Nat) (d : Int) (r : Row)
    (h : r.included_in_email_date ≠ none) :
    (markRow ids d r).included_in_email_date ≠ none := by
  unfold markRow
  split <;> simp [h]

theorem markRow_included_of_mem (ids : List Nat) (d : Int) (r : Row)
    (h : ids.contains r.id = true) :
    (markRow ids d r).included_in_email_date = some d := by
  unfold markRow
  rw [h]
  simp

theorem urlFenced_applyOp {u : String} {db : DB} (h : urlFenced u db)
    (op : StoreOp) : urlFenced u (applyOp db op) := by
  obtain ⟨⟨w, hw, hwu⟩, hall⟩ := h
  cases op with
  | insert a newId =>
    show urlFenced u (insert_article db a newId).1
    cases hex : article_exists db a.url with
    | true =>
      rw [insert_article_of_exists newId hex]
      exact ⟨⟨w, hw, hwu⟩, hall⟩
    | false =>
      rw [insert_article_of_not_exists newId hex]
      have hau : a.url ≠ u := by
        intro heq
        have : article_exists db a.url = true :=
          List.any_eq_true.mpr ⟨w, hw, by simp [hwu, heq]⟩
        rw [hex] at this
        exact Bool.false_ne_true this
      constructor
      · exact ⟨w, by simp [hw], hwu⟩
      · intro r hr hru
        rcases List.mem_append.mp hr with hr | hr
        · exact hall r hr hru
        · have : r = freshRow a newId := by simpa using hr
          rw [this] at hru
          exact absurd hru hau
  | updateAnalysis url ls lc sc ke dp =>
    show urlFenced u (update_article_analysis db url ls lc sc ke dp).1
    unfold update_article_analysis
    constructor
    · exact ⟨updateRow url ls lc sc ke dp w,
        List.mem_map.mpr ⟨w, hw, rfl⟩, by rw [updateRow_url, hwu]⟩
    · intro r hr hru
      obtain ⟨r0, hr0, heq⟩ := List.mem_map.mp hr
      rw [← heq, updateRow_included]
      refine hall r0 hr0 ?_
      rw [← updateRow_url url ls lc sc ke dp r0, heq]
      exact hru
  | mark ids d =>
    show urlFenced u (mark_articles_sent db ids d).1
    unfold mark_articles_sent
    constructor
    · exact ⟨markRow ids d w, List.mem_map.mpr ⟨w, hw, rfl⟩,
        by rw [markRow_url, hwu]⟩
    · intro r hr hru
      obtain ⟨r0, hr0, heq⟩ := List.mem_map.mp hr
      rw [← heq]
      refine markRow_included_ne ids d r0 ?_
      refine hall r0 hr0 ?_
      rw [← markRow_url ids d r0, heq]
      exact hru

theorem urlFenced_applyOps {u : String} {db : DB} (h : urlFenced u db)
    (ops : List StoreOp) : urlFenced u (applyOps db ops) := by
  induction ops generalizing db with
  | nil => exact h
  | cons op rest ih => exact ih (urlFenced_applyOp h op)

theorem urlFenced_not_selected {u : String} {db : DB} (h : urlFenced u db)
    (s e : Int) (p : Bool) : ∀ r ∈ get_articles_for_digest db s e p,
    r.url ≠ u := by
  intro r hr hru
  have hq := (mem_get_articles_for_digest.mp hr).2
  have hmem := (mem_get_articles_for_digest.mp hr).1
  unfold matchesDigestQuery at hq
  have hnone : r.included_in_email_date = none := by
    rcases hinc : r.included_in_email_date with _ | v
    · rfl
    · rw [hinc] at hq
      simp at hq
  exact h.2 r hmem hru hnone

/-- C1: once `mark_articles_sent` succeeds for an article (every record
carrying its `url` is in the marked id set), no later
`get_articles_for_digest` call — over any further inserts, analysis
updates and mark batches, for any date range and either `only_processed`
mode — returns a record with that article's `url`: the
`included_in_email_date IS NULL` filter excludes it, and no store
operation ever clears that column. -/
theorem monotonic_delivery_fence (db : DB) (ids : List Nat) (d : Int)
    (r0 : Row) (h0 : r0 ∈ db) (hid : r0.id ∈ ids)
    (hall : ∀ r ∈ db, r.url = r0.url → r.id ∈ ids) :
    (mark_articles_sent db ids d).2 = true ∧
    ∀ (ops : List StoreOp) (s e : Int) (p : Bool),
      ∀ r ∈ get_articles_for_digest
        (applyOps (mark_articles_sent db ids d).1 ops) s e p,
      r.url ≠ r0.url := by
  constructor
  · exact List.any_eq_true.mpr ⟨r0, h0, List.elem_iff.mpr hid⟩
  · intro ops s e p
    have hfenced : urlFenced r0.url (mark_articles_sent db ids d).1 := by
      unfold mark_articles_sent
      constructor
      · exact ⟨markRow ids d r0, List.mem_map.mpr ⟨r0, h0, rfl⟩,
          markRow_url ids d r0⟩
      · intro r hr hru
        obtain ⟨r1, hr1, heq⟩ := List.mem_map.mp hr
        have hu1 : r1.url = r0.url := by
          rw [← markRow_url ids d r1, heq]
          exact hru
        have hin : ids.contains r1.id = true :=
          List.elem_iff.mpr (hall r1 hr1 hu1)
        rw [← heq, markRow_included_of_mem ids d r1 hin]
        simp
    exact urlFenced_not_selected (urlFenced_applyOps hfenced ops) s e p

/-- Witness for C1: a marked article is invisible to an immediate
re-selection over the whole range. -/
theorem monotonic_delivery_fence_witness :
    (mark_articles_sent
      [{ id := 1, url := "https://x/a", title := "t", rss_summary := "s",
         feed_category := "f", published_date := some 3, processed := true,
         llm_summary := some "ls", llm_category := some "lc",
         importance_score := some 8, key_entities := some [],
         data_points := some [], included_in_email_date := none }] [1] 9).2
        = true ∧
    ({ id := 1, url := "https://x/a", title := "t", rss_summary := "s",
       feed_category := "f", published_date := some 3, processed := true,
       llm_summary := some "ls", llm_category := some "lc",
       importance_score := some 8, key_entities := some [],
       data_points := some [], included_in_email_date := none } : Row) ∉
      get_articles_for_digest
        (applyOps (mark_articles_sent
          [{ id := 1, url := "https://x/a", title := "t", rss_summary := "s",
             feed_category := "f", published_date := some 3, processed := true,
             llm_summary := some "ls", llm_category := some "lc",
             importance_score := some 8, key_entities := some [],
             data_points := some [], included_in_email_date := none }] [1] 9).1
          []) 0 10 true := by
  have h := monotonic_delivery_fence
    [{ id := 1, url := "https://x/a", title := "t", rss_summary := "s",
       feed_category := "f", published_date := some 3, processed := true,
       llm_summary := some "ls", llm_category := some "lc",
       importance_score := some 8, key_entities := some [],
       data_points := some [], included_in_email_date := none }] [1] 9
    { id := 1, url := "https://x/a", title := "t", rss_summary := "s",
      feed_category := "f", published_date := some 3, processed := true,
      llm_summary := some "ls", llm_category := some "lc",
      importance_score := some 8, key_entities := some [],
      data_points := some [], included_in_email_date := none }
    (by simp) (by simp)
    (by
      intro r hr _
      have : r = _ := List.mem_singleton.mp hr
      rw [this]
      simp)
  exact ⟨h.1, fun hm => h.2 [] 0 10 true _ hm rfl⟩

/-! ### C2 — delivery and marking are coupled -/

/-- C2: in `generate_and_send_digest` (not a dry run), if `send_digest`
reports failure — a transport status outside `\x7b200, 201, 202\x7d` or an
exception — then `mark_articles_sent` is never invoked, the store is
unchanged, the run reports failure, and a second run's selection over the
same range returns the same articles; conversely `mark_articles_sent` is
invoked only when `send_digest` returned `True`. -/
theorem dispatch_failure_no_marking (db : DB) (s e : Int) (t : Template)
    (dr : String) (gen : CompletionOutcome) (tr : SendOutcome) (today : Int) :
    (send_digest tr = false →
      (generate_and_send_digest db s e false t dr gen tr today).markInvoked
          = false ∧
      (generate_and_send_digest db s e false t dr gen tr today).db = db ∧
      (generate_and_send_digest db s e false t dr gen tr today).ok = false ∧
      get_articles_for_digest
          (generate_and_send_digest db s e false t dr gen tr today).db s e true
        = get_articles_for_digest db s e true) ∧
    (∀ dry_run : Bool,
      (generate_and_send_digest db s e dry_run t dr gen tr today).markInvoked
          = true →
      send_digest tr = true) := by
  constructor
  · intro hsend
    cases hemp : (get_articles_for_digest db s e true).isEmpty with
    | true => simp [generate_and_send_digest, hemp]
    | false =>
      rcases hgd : generate_digest gen (get_articles_for_digest db s e true)
          t dr with ⟨od, b⟩
      cases od with
      | none => simp [generate_and_send_digest, hemp, hgd]
      | some dh =>
        cases hdh : (dh == "") with
        | true => simp [generate_and_send_digest, hemp, hgd, hdh]
        | false => simp [generate_and_send_digest, hemp, hgd, hdh, hsend]
  · intro dry_run
    cases hemp : (get_articles_for_digest db s e true).isEmpty with
    | true => simp [generate_and_send_digest, hemp]
    | false =>
      rcases hgd : generate_digest gen (get_articles_for_digest db s e true)
          t dr with ⟨od, b⟩
      cases od with
      | none => simp [generate_and_send_digest, hemp, hgd]
      | some dh =>
        cases hdh : (dh == "") with
        | true => simp [generate_and_send_digest, hemp, hgd, hdh]
        | false =>
          cases hdry : dry_run with
          | true => simp [generate_and_send_digest, hemp, hgd, hdh, hdry]
          | false =>
            cases hs : send_digest tr with
            | true => intro _; rfl
            | false =>
              simp [generate_and_send_digest, hemp, hgd, hdh, hdry, hs]

/-- Witness for C2: a 500 transport status leaves the store unchanged and
marks nothing. -/
theorem dispatch_failure_no_marking_witness :
    (generate_and_send_digest
      [{ id := 1, url := "https://x/a", title := "t", rss_summary := "s",
         feed_category := "f", published_date := some 3, processed := true,
         llm_summary := some "ls", llm_category := some "lc",
         importance_score := some 8, key_entities := some [],
         data_points := some [], included_in_email_date := none }]
      0 10 false [Seg.fld "article_count"] "dr" ⟨some "body"⟩
      (SendOutcome.status 500) 9).markInvoked = false ∧
    (generate_and_send_digest
      [{ id := 1, url := "https://x/a", title := "t", rss_summary := "s",
         feed_category := "f", published_date := some 3, processed := true,
         llm_summary := some "ls", llm_category := some "lc",
         importance_score := some 8, key_entities := some [],
         data_points := some [], included_in_email_date := none }]
      0 10 false [Seg.fld "article_count"] "dr" ⟨some "body"⟩
      (SendOutcome.status 500) 9).db =
      [{ id := 1, url := "https://x/a", title := "t", rss_summary := "s",
         feed_category := "f", published_date := some 3, processed := true,
         llm_summary := some "ls", llm_category := some "lc",
         importance_score := some 8, key_entities := some [],
         data_points := some [], included_in_email_date := none }] := by
  have h := (dispatch_failure_no_marking
    [{ id := 1, url := "https://x/a", title := "t", rss_summary := "s",
       feed_category := "f", published_date := some 3, processed := true,
       llm_summary := some "ls", llm_category := some "lc",
       importance_score := some 8, key_entities := some [],
       data_points := some [], included_in_email_date := none }]
    0 10 [Seg.fld "article_count"] "dr" ⟨some "body"⟩
    (SendOutcome.status 500) 9).1 (by decide)
  exact ⟨h.1, h.2.1⟩

/-! ### C4 — the empty-input guard -/

/-- C4 counterexample: called directly with an empty article list and a
template that formats (here a bare `article_count` field),
`LLMProcessor.generate_digest` does issue the completion call and
returns its body — it neither declares failure nor skips the backend. -/
theorem generate_digest_empty_calls_backend :
    generate_digest ⟨some "digest body"⟩ [] [Seg.fld "article_count"]
      "Jan 1 - Jan 7" = (some "digest body", true) := by decide

/-- C4 amended: the empty-input guard lives in the orchestrator — when
selection returns no articles, `generate_and_send_digest` declares
failure without invoking `generate_digest`, so no completion call is
issued. -/
theorem empty_selection_no_backend (db : DB) (s e : Int) (dry_run : Bool)
    (t : Template) (dr : String) (gen : CompletionOutcome)
    (tr : SendOutcome) (today : Int)
    (h : get_articles_for_digest db s e true = []) :
    generate_and_send_digest db s e dry_run t dr gen tr today =
      ⟨db, false, false, false, false⟩ := by
  simp [generate_and_send_digest, h]

/-- Witness for the amended C4 on an empty store. -/
theorem empty_selection_no_backend_witness :
    generate_and_send_digest [] 0 10 false [Seg.fld "article_count"] "dr"
      ⟨some "body"⟩ (SendOutcome.status 200) 5 =
      ⟨[], false, false, false, false⟩ :=
  empty_selection_no_backend [] 0 10 false [Seg.fld "article_count"] "dr"
    ⟨some "body"⟩ (SendOutcome.status 200) 5 (by simp [get_articles_for_digest])

/-! ### C5 — the `date_range` substitution point -/

theorem pyFormat_shipped_prompt (c l : String) :
    pyFormat DIGEST_GENERATION_PROMPT
      [("article_count", c), ("article_list", l)] = none := by
  simp [DIGEST_GENERATION_PROMPT, pyFormat, List.lookup]

/-- C5 fails on the code: `generate_digest` formats the prompt with only
`article_count` and `article_list` and never substitutes its
`date_range` argument, so with the shipped `DIGEST_GENERATION_PROMPT`
(whose template does contain a `date_range` field) `str.format` raises
`KeyError`, the exception handler returns `None`, and the completion
backend is never called: composition always fails, whatever the article
list, the backend outcome and the `date_range` argument. -/
theorem date_range_never_substituted (gen : CompletionOutcome)
    (articles : List Row) (date_range : String) :
    generate_digest gen articles DIGEST_GENERATION_PROMPT date_range =
      (none, false) := by
  unfold generate_digest
  cases hs : sortArticles articles with
  | none => rfl
  | some sorted =>
    cases hf : format_articles_for_prompt sorted with
    | none => simp [hf]
    | some al => simp [hf, pyFormat_shipped_prompt]

/-- A processed article used as a concrete input by witnesses. -/
def sampleRow : Row :=
  { id := 2, url := "https://x/b", title := "tb", rss_summary := "sb",
    feed_category := "fb", published_date := some 4, processed := true,
    llm_summary := some "lsb", llm_category := some "lcb",
    importance_score := some 6, key_entities := some ["k"],
    data_points := some ["d"], included_in_email_date := none }

/-- An unprocessed article used as a concrete input by witnesses. -/
def unprocessedRow : Row :=
  { id := 3, url := "https://x/c", title := "tc", rss_summary := "sc",
    feed_category := "fc", published_date := some 5, processed := false,
    llm_summary := none, llm_category := none, importance_score := none,
    key_entities := none, data_points := none,
    included_in_email_date := none }

/-! ### C6 — no schema validation in `analyze_article` -/

/-- C6 counterexample: the response `\x7b\x7d` parses as JSON, so
`analyze_article` returns it successfully, although it has none of the
§4.3 fields. -/
theorem analyze_article_no_schema_check :
    (analyze_article ⟨some "\x7b\x7d"⟩ sampleRow []).1 = some (Json.obj []) ∧
    validAnalysisShape (Json.obj []) = false :=
  ⟨rfl, rfl⟩

/-- C6 amended: `analyze_article` returns a failure unless the backend
response, after code-fence stripping, parses as JSON; the parsed value is
returned as-is, with no check of its fields. -/
theorem analyze_article_returns_parsed (env : CompletionOutcome)
    (article : Row) (t : Template) (j : Json)
    (h : (analyze_article env article t).1 = some j) :
    ∃ content, env.response = some content ∧
      jsonLoads (stripCodeFences (pyStrip content)) = some j := by
  unfold analyze_article at h
  cases hf : pyFormat t (analysisPromptVals article) with
  | none =>
    rw [hf] at h
    exact absurd h (by simp)
  | some p =>
    rw [hf] at h
    cases hr : env.response with
    | none =>
      rw [hr] at h
      exact absurd h (by simp)
    | some content =>
      rw [hr] at h
      exact ⟨content, rfl, h⟩

/-- Witness for the amended C6: a bare numeral response is returned as the
parsed value. -/
theorem analyze_article_returns_parsed_witness :
    ∃ content, (⟨some "7"⟩ : CompletionOutcome).response = some content ∧
      jsonLoads (stripCodeFences (pyStrip content)) = some (Json.num 7) :=
  analyze_article_returns_parsed ⟨some "7"⟩ sampleRow [] (Json.num 7) rfl

/-! ### C8 — inclusive on unknown date -/

/-- C8: an entry none of whose date fallbacks resolves is kept with a null
`published_at` (given a link and a title), and every kept article with a
known date is not strictly older than the cutoff. -/
theorem inclusive_on_unknown_date (dp : String → Option Int)
    (mk : TimeTuple → Option Int) (entries : List Entry)
    (feed_name : String) (cutoff : Int) :
    (∀ e ∈ entries, parse_date dp mk e = none → e.link ≠ "" →
      e.title ≠ "" →
      ({ url := e.link, title := e.title, rss_summary := e.summary,
         feed_category := feed_name, published_date := none } :
        ArticleInput) ∈ fetch_single_feed dp mk entries feed_name cutoff) ∧
    (∀ a ∈ fetch_single_feed dp mk entries feed_name cutoff,
      ∀ d : Int, a.published_date = some d → ¬ d < cutoff) := by
  constructor
  · intro e he hpd hl ht
    refine List.mem_filterMap.mpr ⟨e, he, ?_⟩
    simp [hpd, hl, ht]
  · intro a ha d hd
    obtain ⟨e, he, hbody⟩ := List.mem_filterMap.mp ha
    simp only at hbody
    cases hpd : parse_date dp mk e with
    | none =>
      rw [hpd] at hbody
      simp at hbody
      obtain ⟨-, heq⟩ := hbody
      rw [← heq] at hd
      simp at hd
    | some d0 =>
      rw [hpd] at hbody
      cases hlt : decide (d0 < cutoff) with
      | true => simp [hlt] at hbody
      | false =>
        simp [hlt] at hbody
        obtain ⟨-, heq⟩ := hbody
        rw [← heq] at hd
        simp at hd
        intro hcon
        rw [← hd] at hcon
        rw [decide_eq_true hcon] at hlt
        exact Bool.false_ne_true hlt.symm

/-- Witness for C8: an entry whose only date field is unparsable is kept
with a null date. -/
theorem inclusive_on_unknown_date_witness :
    ({ url := "https://x/e", title := "T", rss_summary := "",
       feed_category := "Feed", published_date := none } : ArticleInput) ∈
      fetch_single_feed (fun _ => none) (fun _ => none)
        [{ link := "https://x/e", title := "T", summary := "",
           published := some "garbage", updated := none, created := none,
           published_parsed := none }] "Feed" 100 :=
  (inclusive_on_unknown_date (fun _ => none) (fun _ => none)
    [{ link := "https://x/e", title := "T", summary := "",
       published := some "garbage", updated := none, created := none,
       published_parsed := none }] "Feed" 100).1
    { link := "https://x/e", title := "T", summary := "",
      published := some "garbage", updated := none, created := none,
      published_parsed := none }
    (by simp) rfl (by decide) (by decide)

/-! ### C10 — defaults for missing analysis fields -/

theorem lookup_eq_none_of_not_mem_keys (k : String)
    (fs : List (String × Json)) (h : k ∉ fs.map Prod.fst) :
    fs.lookup k = none := by
  induction fs with
  | nil => rfl
  | cons p rest ih =>
    have h1 : (k == p.1) = false :=
      beq_eq_false_iff_ne.mpr fun he => h (by simp [← he])
    have h2 : k ∉ rest.map Prod.fst := fun hm => h (by simp [hm])
    simp [List.lookup, h1, ih h2]

theorem pyDictGet_of_not_mem (k : String) (fs : List (String × Json))
    (dflt : Json) (h : k ∉ fs.map Prod.fst) :
    pyDictGet fs k dflt = dflt := by
  unfold pyDictGet
  rw [lookup_eq_none_of_not_mem_keys k fs.reverse (by simpa using h)]

/-- C10 counterexample: a successful analysis response that omits every
§4.3 field — the empty object — is falsy in Python, so
`process_articles` treats it as a failed analysis and does *not* persist
the article as analyzed. -/
theorem empty_object_not_persisted :
    process_articles [unprocessedRow] [] (fun _ => some "\x7b\x7d") none =
      ([unprocessedRow], 0) := by
  rfl

/-- C10 amended: whenever the analysis response is a *non-empty* object
(Python truthiness) whose present fields are well-shaped, the
orchestrator persists the article as analyzed with the defaults `''`,
`'Unknown'`, `5`, `[]`, `[]` substituted for each omitted field, so
`processed = true` does not imply the stored fields came from the
backend. -/
theorem defaults_for_missing_fields (db : DB) (article : Row) (t : Template)
    (content : String) (fs : List (String × Json)) (ls lc : String)
    (sc : Int) (ke dp : List String)
    (hresp : (analyze_article ⟨some content⟩ article t).1 =
      some (Json.obj fs))
    (hne : fs ≠ [])
    (hs : asStr (pyDictGet fs "summary" (Json.str "")) = some ls)
    (hc : asStr (pyDictGet fs "category" (Json.str "Unknown")) = some lc)
    (hi : asInt (pyDictGet fs "importance_score" (Json.num 5)) = some sc)
    (hk : asStrList (pyDictGet fs "key_entities" (Json.arr [])) = some ke)
    (hd : asStrList (pyDictGet fs "data_points" (Json.arr [])) = some dp) :
    process_one db article (some content) t =
      update_article_analysis db article.url ls lc sc ke dp ∧
    ("summary" ∉ fs.map Prod.fst → ls = "") ∧
    ("category" ∉ fs.map Prod.fst → lc = "Unknown") ∧
    ("importance_score" ∉ fs.map Prod.fst → sc = 5) ∧
    ("key_entities" ∉ fs.map Prod.fst → ke = []) ∧
    ("data_points" ∉ fs.map Prod.fst → dp = []) ∧
    ∀ r ∈ (process_one db article (some content) t).1,
      r.url = article.url →
      r.processed = true ∧ r.llm_summary = some ls ∧
      r.llm_category = some lc ∧ r.importance_score = some sc ∧
      r.key_entities = some ke ∧ r.data_points = some dp := by
  have hf : fs.isEmpty = false := by
    cases fs with
    | nil => exact absurd rfl hne
    | cons p rest => rfl
  have h1 : process_one db article (some content) t =
      update_article_analysis db article.url ls lc sc ke dp := by
    unfold process_one
    rw [hresp]
    simp [jsonTruthy, hf, hs, hc, hi, hk, hd]
  refine ⟨h1, ?_, ?_, ?_, ?_, ?_, ?_⟩
  · intro hmem
    rw [pyDictGet_of_not_mem _ _ _ hmem] at hs
    simpa [asStr] using hs.symm
  · intro hmem
    rw [pyDictGet_of_not_mem _ _ _ hmem] at hc
    simpa [asStr] using hc.symm
  · intro hmem
    rw [pyDictGet_of_not_mem _ _ _ hmem] at hi
    simpa [asInt] using hi.symm
  · intro hmem
    rw [pyDictGet_of_not_mem _ _ _ hmem] at hk
    simpa [asStrList] using hk.symm
  · intro hmem
    rw [pyDictGet_of_not_mem _ _ _ hmem] at hd
    simpa [asStrList] using hd.symm
  · intro r hr hru
    rw [h1] at hr
    unfold update_article_analysis at hr
    obtain ⟨r0, hr0, heq⟩ := List.mem_map.mp hr
    cases hcase : (r0.url == article.url) with
    | true =>
      rw [← heq]
      unfold updateRow
      rw [hcase]
      simp
    | false =>
      have : r = r0 := by
        rw [← heq]
        unfold updateRow
        rw [hcase]
        simp
      rw [this] at hru
      exact absurd hru (by simpa using hcase)

/-- Witness for the amended C10: a response carrying only `summary`
persists the article analyzed with the defaults for the other four
fields. -/
theorem defaults_for_missing_fields_witness :
    process_one [unprocessedRow] unprocessedRow
        (some "\x7b\"summary\": \"hi\"\x7d") [] =
      update_article_analysis [unprocessedRow] unprocessedRow.url "hi"
        "Unknown" 5 [] [] :=
  (defaults_for_missing_fields [unprocessedRow] unprocessedRow []
    "\x7b\"summary\": \"hi\"\x7d" [("summary", Json.str "hi")] "hi"
    "Unknown" 5 [] [] rfl (by simp) rfl rfl rfl rfl rfl).1

end RssDigest
